import Mathlib

/-!
Shallow embedding of the OVSDB client decoder from `src/bin/main.rs` of the
ovs-vtep repository.

The Rust program decodes OVSDB JSON-RPC payloads with serde visitors:
`JsonUuidVisitor` (a tagged pair representing one UUID), `JsonUuidSetVisitor`
(either a tagged set of UUID pairs or a single bare UUID pair), the
serde-derived row-part structs (`JsonVtepPhysicalSwitchPart`, ...), the
serde-derived row-diff structs (`JsonDiffVtepPhysicalSwitch`, ...), the
serde-derived whole-database diff (`JsonDiff`), and the two-element
monitor-event parameter array (`JsonRpcMonitorEventParamsVisitor`).  The
`main2` function routes incoming monitor events on their key string.

We model parsed JSON values as an inductive type, serde's fallible
deserialization as total functions into `Except DecodeError`, and mirror the
source's control flow (length checks first, then tag dispatch, with the same
error productions serde would construct: `invalid_length`, `invalid_type`,
and the source's `custom` messages).  Sequence deserialization follows
serde's value-deserializer semantics: a visitor consumes elements from the
front of the array, and elements left unconsumed after the visitor returns
are an `invalid_length` error.
-/

/-- A parsed JSON value, the input type of every decoder (numbers as `Int`:
no decoded field of this program is numeric, numbers only occur as malformed
input). -/
inductive Json where
  | null
  | bool (b : Bool)
  | num (n : Int)
  | str (s : String)
  | arr (elems : List Json)
  | obj (members : List (String × Json))
deriving Repr

/-- The error productions of the source's deserialization code: serde's
`invalid_length(len, expected)` and `invalid_type(_, expected)` plus the
source's `Error::custom(msg)` messages. -/
inductive DecodeError where
  | invalidLength (len : Nat) (expected : String)
  | invalidType (expected : String)
  | custom (msg : String)
deriving Repr, DecidableEq

/-- Field lookup in a JSON object (serde-derive field access by name). -/
def lookupField : List (String × Json) → String → Option Json
  | [], _ => none
  | (k, v) :: rest, key => if k = key then some v else lookupField rest key

/-- serde's `deserialize_seq` over an already-parsed value: a non-array is an
`invalid_type` error against the visitor's `expecting` string; otherwise the
visitor consumes elements from the front, and leftover elements afterwards
are an `invalid_length` error (serde-json's value deserializer). -/
def deserializeSeq {α : Type} (visit : List Json → Except DecodeError (α × List Json))
    (expecting : String) (j : Json) : Except DecodeError α :=
  match j with
  | .arr xs =>
    match visit xs with
    | .error e => .error e
    | .ok (a, rest) =>
      match rest with
      | [] => .ok a
      | _ :: _ => .error (.invalidLength xs.length "fewer elements in array")
  | _ => .error (.invalidType expecting)

/-- `JsonUuidVisitor::parse`: accepts exactly a two-element array
`["uuid", s]` with `s` a string, yielding `s`.  An array of length other
than two is `invalid_length`; everything else falls through to the single
custom error. -/
def JsonUuidVisitor.parse (val : Json) : Except DecodeError String :=
  match val with
  | .arr v =>
    if v.length = 2 then
      match v with
      | [Json.str head, emt2] =>
        if head = "uuid" then
          match emt2 with
          | .str uuid => .ok uuid
          | _ => .error (.custom "expected [\"uuid\", <uuid>]")
        else .error (.custom "expected [\"uuid\", <uuid>]")
      | _ => .error (.custom "expected [\"uuid\", <uuid>]")
    else .error (.invalidLength 0 "2")
  | _ => .error (.custom "expected [\"uuid\", <uuid>]")

/-- `JsonUuidVisitor::visit_seq`: drains the whole sequence into a vector and
runs `parse` on it; it always consumes every element. -/
def JsonUuidVisitor.visit (xs : List Json) : Except DecodeError (String × List Json) :=
  match JsonUuidVisitor.parse (.arr xs) with
  | .error e => .error e
  | .ok uuid => .ok (uuid, [])

/-- `deserialize_uuid`: deserializes a sequence with `JsonUuidVisitor` and
wraps the result in `Some`. -/
def deserialize_uuid (j : Json) : Except DecodeError (Option String) :=
  match deserializeSeq JsonUuidVisitor.visit "UUID" j with
  | .error e => .error e
  | .ok uuid => .ok (some uuid)

/-- The `for entry in uuids` loop of `JsonUuidSetVisitor::visit_seq`: parses
each member with `JsonUuidVisitor::parse`, failing on the first bad member. -/
def parseUuidEntries : List Json → Except DecodeError (List String)
  | [] => .ok []
  | entry :: rest =>
    match JsonUuidVisitor.parse entry with
    | .error e => .error e
    | .ok uuid =>
      match parseUuidEntries rest with
      | .error e => .error e
      | .ok uuids => .ok (uuid :: uuids)

/-- `JsonUuidSetVisitor::visit_seq`: reads two elements (fewer is
`invalid_length`); a `"set"` head demands an array payload of UUID pairs, a
`"uuid"` head demands a string payload yielding a singleton, and any other
head is the custom error. -/
def JsonUuidSetVisitor.visit (xs : List Json) :
    Except DecodeError (List String × List Json) :=
  match xs with
  | emt1 :: emt2 :: rest =>
    match emt1 with
    | .str head =>
      if head = "set" then
        match emt2 with
        | .arr uuids =>
          match parseUuidEntries uuids with
          | .error e => .error e
          | .ok ret => .ok (ret, rest)
        | _ => .error (.custom "Malformed JSON RPC set")
      else if head = "uuid" then
        match emt2 with
        | .str uuid => .ok ([uuid], rest)
        | _ => .error (.custom "Malformed JSON RPC uuid")
      else .error (.custom "expected \"set\" or \"uuid\"")
    | _ => .error (.custom "expected \"set\" or \"uuid\"")
  | _ => .error (.invalidLength 0 "2")

/-- `deserialize_uuid_set`: deserializes a sequence with `JsonUuidSetVisitor`
and wraps the result in `Some`. -/
def deserialize_uuid_set (j : Json) : Except DecodeError (Option (List String)) :=
  match deserializeSeq JsonUuidSetVisitor.visit "set of UUIDs" j with
  | .error e => .error e
  | .ok uuids => .ok (some uuids)

/-- The two generic values of an `update` notification's parameter array:
the subscription key and the updates payload. -/
structure JsonRpcMonitorEventParams where
  key : Json
  updates : Json
deriving Repr

/-- `JsonRpcMonitorEventParamsVisitor::visit_seq`: reads two elements and
stops; fewer than two is `invalid_length`.  Elements beyond the second are
left to the surrounding deserializer. -/
def JsonRpcMonitorEventParamsVisitor.visit (xs : List Json) :
    Except DecodeError (JsonRpcMonitorEventParams × List Json) :=
  match xs with
  | emt1 :: emt2 :: rest => .ok (⟨emt1, emt2⟩, rest)
  | _ => .error (.invalidLength 0 "2")

/-- `deserialize_monitor_event_params`: deserializes the notification's
parameter array with `JsonRpcMonitorEventParamsVisitor`. -/
def deserialize_monitor_event_params (j : Json) :
    Except DecodeError JsonRpcMonitorEventParams :=
  deserializeSeq JsonRpcMonitorEventParamsVisitor.visit
    "Two-element array with monitor even parameters" j

/-- serde's deserialization of a plain `String` value. -/
def decodeString (j : Json) : Except DecodeError String :=
  match j with
  | .str s => .ok s
  | _ => .error (.invalidType "a string")

/-- serde's deserialization of a `Vec<String>` element list. -/
def decodeStringEntries : List Json → Except DecodeError (List String)
  | [] => .ok []
  | entry :: rest =>
    match entry with
    | .str s =>
      match decodeStringEntries rest with
      | .error e => .error e
      | .ok ss => .ok (s :: ss)
    | _ => .error (.invalidType "a string")

/-- serde's deserialization of a plain `Vec<String>` value. -/
def decodeVecString (j : Json) : Except DecodeError (List String) :=
  match j with
  | .arr xs => decodeStringEntries xs
  | _ => .error (.invalidType "a sequence")

/-- serde's deserialization of an `Option<T>` value: `null` is `None`,
anything else deserializes as `T`. -/
def decodeOption {α : Type} (dec : Json → Except DecodeError α) (j : Json) :
    Except DecodeError (Option α) :=
  match j with
  | .null => .ok none
  | _ =>
    match dec j with
    | .error e => .error e
    | .ok a => .ok (some a)

/-- serde-derive's handling of one struct field: a missing key takes the
default (for `Option` fields and `#[serde(default)]` fields alike, `None`),
a present key runs the field's deserializer. -/
def decodeField {α : Type} (kvs : List (String × Json)) (key : String)
    (dec : Json → Except DecodeError α) (dflt : α) : Except DecodeError α :=
  match lookupField kvs key with
  | none => .ok dflt
  | some v => dec v

/-- `JsonVtepPhysicalSwitchPart`: the partial Physical_Switch row. -/
structure JsonVtepPhysicalSwitchPart where
  name : Option String
  ports : Option (List String)
  tunnel_ips : Option String
  tunnels : Option (List String)
deriving Repr, DecidableEq

/-- serde-derived `Deserialize` for `JsonVtepPhysicalSwitchPart`: `name` and
`tunnel_ips` are plain optional strings; `ports` and `tunnels` use
`deserialize_uuid_set` and default to `None` when absent.  Unknown keys are
ignored (serde's default). -/
def JsonVtepPhysicalSwitchPart.deserialize (j : Json) :
    Except DecodeError JsonVtepPhysicalSwitchPart :=
  match j with
  | .obj kvs =>
    match decodeField kvs "name" (decodeOption decodeString) none with
    | .error e => .error e
    | .ok name =>
      match decodeField kvs "ports" deserialize_uuid_set none with
      | .error e => .error e
      | .ok ports =>
        match decodeField kvs "tunnel_ips" (decodeOption decodeString) none with
        | .error e => .error e
        | .ok tunnel_ips =>
          match decodeField kvs "tunnels" deserialize_uuid_set none with
          | .error e => .error e
          | .ok tunnels => .ok ⟨name, ports, tunnel_ips, tunnels⟩
  | _ => .error (.invalidType "struct JsonVtepPhysicalSwitchPart")

/-- `JsonVtepPhysicalLocatorPart`: the partial Physical_Locator row. -/
structure JsonVtepPhysicalLocatorPart where
  dst_ip : Option String
  encapsulation_type : Option String
deriving Repr, DecidableEq

/-- serde-derived `Deserialize` for `JsonVtepPhysicalLocatorPart`: two plain
optional string columns. -/
def JsonVtepPhysicalLocatorPart.deserialize (j : Json) :
    Except DecodeError JsonVtepPhysicalLocatorPart :=
  match j with
  | .obj kvs =>
    match decodeField kvs "dst_ip" (decodeOption decodeString) none with
    | .error e => .error e
    | .ok dst_ip =>
      match decodeField kvs "encapsulation_type" (decodeOption decodeString) none with
      | .error e => .error e
      | .ok encapsulation_type => .ok ⟨dst_ip, encapsulation_type⟩
  | _ => .error (.invalidType "struct JsonVtepPhysicalLocatorPart")

/-- `JsonVtepPhysicalLocatorSetPart`: the partial Physical_Locator_Set row;
`locators` is a plain `Option<Vec<String>>` with no custom deserializer. -/
structure JsonVtepPhysicalLocatorSetPart where
  locators : Option (List String)
deriving Repr, DecidableEq

/-- serde-derived `Deserialize` for `JsonVtepPhysicalLocatorSetPart`: the
`locators` column is decoded as a plain JSON array of strings. -/
def JsonVtepPhysicalLocatorSetPart.deserialize (j : Json) :
    Except DecodeError JsonVtepPhysicalLocatorSetPart :=
  match j with
  | .obj kvs =>
    match decodeField kvs "locators" (decodeOption decodeVecString) none with
    | .error e => .error e
    | .ok locators => .ok ⟨locators⟩
  | _ => .error (.invalidType "struct JsonVtepPhysicalLocatorSetPart")

/-- `JsonVtepTunnelPart`: the partial Tunnel row (`local` is a reserved word
in Lean, hence the underscore). -/
structure JsonVtepTunnelPart where
  local_ : Option String
  remote : Option String
deriving Repr, DecidableEq

/-- serde-derived `Deserialize` for `JsonVtepTunnelPart`: both columns use
`deserialize_uuid` and default to `None` when absent. -/
def JsonVtepTunnelPart.deserialize (j : Json) :
    Except DecodeError JsonVtepTunnelPart :=
  match j with
  | .obj kvs =>
    match decodeField kvs "local" deserialize_uuid none with
    | .error e => .error e
    | .ok l =>
      match decodeField kvs "remote" deserialize_uuid none with
      | .error e => .error e
      | .ok r => .ok ⟨l, r⟩
  | _ => .error (.invalidType "struct JsonVtepTunnelPart")

/-- `JsonDiffVtepPhysicalSwitch`: the old/new halves of one Physical_Switch
row diff, both optional. -/
structure JsonDiffVtepPhysicalSwitch where
  old : Option JsonVtepPhysicalSwitchPart
  new : Option JsonVtepPhysicalSwitchPart
deriving Repr, DecidableEq

/-- serde-derived `Deserialize` for `JsonDiffVtepPhysicalSwitch`: each half
is an optional row part, absent keys yield `None` with no further check. -/
def JsonDiffVtepPhysicalSwitch.deserialize (j : Json) :
    Except DecodeError JsonDiffVtepPhysicalSwitch :=
  match j with
  | .obj kvs =>
    match decodeField kvs "old" (decodeOption JsonVtepPhysicalSwitchPart.deserialize) none with
    | .error e => .error e
    | .ok o =>
      match decodeField kvs "new" (decodeOption JsonVtepPhysicalSwitchPart.deserialize) none with
      | .error e => .error e
      | .ok n => .ok ⟨o, n⟩
  | _ => .error (.invalidType "struct JsonDiffVtepPhysicalSwitch")

/-- `JsonDiffVtepPhysicalLocator`: the old/new halves of one
Physical_Locator row diff. -/
structure JsonDiffVtepPhysicalLocator where
  old : Option JsonVtepPhysicalLocatorPart
  new : Option JsonVtepPhysicalLocatorPart
deriving Repr, DecidableEq

/-- serde-derived `Deserialize` for `JsonDiffVtepPhysicalLocator`. -/
def JsonDiffVtepPhysicalLocator.deserialize (j : Json) :
    Except DecodeError JsonDiffVtepPhysicalLocator :=
  match j with
  | .obj kvs =>
    match decodeField kvs "old" (decodeOption JsonVtepPhysicalLocatorPart.deserialize) none with
    | .error e => .error e
    | .ok o =>
      match decodeField kvs "new" (decodeOption JsonVtepPhysicalLocatorPart.deserialize) none with
      | .error e => .error e
      | .ok n => .ok ⟨o, n⟩
  | _ => .error (.invalidType "struct JsonDiffVtepPhysicalLocator")

/-- `JsonDiffVtepPhysicalLocatorSet`: the old/new halves of one
Physical_Locator_Set row diff. -/
structure JsonDiffVtepPhysicalLocatorSet where
  old : Option JsonVtepPhysicalLocatorSetPart
  new : Option JsonVtepPhysicalLocatorSetPart
deriving Repr, DecidableEq

/-- serde-derived `Deserialize` for `JsonDiffVtepPhysicalLocatorSet`. -/
def JsonDiffVtepPhysicalLocatorSet.deserialize (j : Json) :
    Except DecodeError JsonDiffVtepPhysicalLocatorSet :=
  match j with
  | .obj kvs =>
    match decodeField kvs "old" (decodeOption JsonVtepPhysicalLocatorSetPart.deserialize) none with
    | .error e => .error e
    | .ok o =>
      match decodeField kvs "new" (decodeOption JsonVtepPhysicalLocatorSetPart.deserialize) none with
      | .error e => .error e
      | .ok n => .ok ⟨o, n⟩
  | _ => .error (.invalidType "struct JsonDiffVtepPhysicalLocatorSet")

/-- `JsonDiffVtepTunnel`: the old/new halves of one Tunnel row diff. -/
structure JsonDiffVtepTunnel where
  old : Option JsonVtepTunnelPart
  new : Option JsonVtepTunnelPart
deriving Repr, DecidableEq

/-- serde-derived `Deserialize` for `JsonDiffVtepTunnel`. -/
def JsonDiffVtepTunnel.deserialize (j : Json) :
    Except DecodeError JsonDiffVtepTunnel :=
  match j with
  | .obj kvs =>
    match decodeField kvs "old" (decodeOption JsonVtepTunnelPart.deserialize) none with
    | .error e => .error e
    | .ok o =>
      match decodeField kvs "new" (decodeOption JsonVtepTunnelPart.deserialize) none with
      | .error e => .error e
      | .ok n => .ok ⟨o, n⟩
  | _ => .error (.invalidType "struct JsonDiffVtepTunnel")

/-- One table of a diff: each row UUID key's value decoded as a row diff
(`HashMap<String, _>` deserialization, modelled as an association list
preserving payload order). -/
def decodeTableRows {α : Type} (dec : Json → Except DecodeError α) :
    List (String × Json) → Except DecodeError (List (String × α))
  | [] => .ok []
  | (k, v) :: rest =>
    match dec v with
    | .error e => .error e
    | .ok a =>
      match decodeTableRows dec rest with
      | .error e => .error e
      | .ok tail => .ok ((k, a) :: tail)

/-- serde's deserialization of a `HashMap<String, T>` value: a JSON object
whose values all deserialize as `T`. -/
def decodeTable {α : Type} (dec : Json → Except DecodeError α) (j : Json) :
    Except DecodeError (List (String × α)) :=
  match j with
  | .obj kvs => decodeTableRows dec kvs
  | _ => .error (.invalidType "a map")

/-- `JsonDiff`: one whole-database diff, four tables keyed by row UUID. -/
structure JsonDiff where
  physical_switch : List (String × JsonDiffVtepPhysicalSwitch)
  physical_locator : List (String × JsonDiffVtepPhysicalLocator)
  physical_locator_set : List (String × JsonDiffVtepPhysicalLocatorSet)
  tunnel : List (String × JsonDiffVtepTunnel)
deriving Repr, DecidableEq

/-- serde-derived `Deserialize` for `JsonDiff`: the four renamed table
fields all carry `#[serde(default)]`, so an absent table is an empty map;
top-level keys other than the four table names are ignored (serde's
default for unknown fields). -/
def JsonDiff.deserialize (j : Json) : Except DecodeError JsonDiff :=
  match j with
  | .obj kvs =>
    match decodeField kvs "Physical_Switch" (decodeTable JsonDiffVtepPhysicalSwitch.deserialize) [] with
    | .error e => .error e
    | .ok ps =>
      match decodeField kvs "Physical_Locator" (decodeTable JsonDiffVtepPhysicalLocator.deserialize) [] with
      | .error e => .error e
      | .ok pl =>
        match decodeField kvs "Physical_Locator_Set" (decodeTable JsonDiffVtepPhysicalLocatorSet.deserialize) [] with
        | .error e => .error e
        | .ok pls =>
          match decodeField kvs "Tunnel" (decodeTable JsonDiffVtepTunnel.deserialize) [] with
          | .error e => .error e
          | .ok t => .ok ⟨ps, pl, pls, t⟩
  | _ => .error (.invalidType "struct JsonDiff")

/-- What `main2`'s event loop does with one monitor event after the key
dispatch: a `hardware_vtep` event is decoded as a `JsonDiff` (the source
unwraps this result), an `Open_vSwitch` event's updates are kept raw. -/
inductive RoutedUpdate where
  | vtepUpdate (d : Except DecodeError JsonDiff)
  | ovsUpdate (updates : Json)
deriving Repr

/-- The key dispatch of `main2`'s event loop: a string key equal to
`"hardware_vtep"` or `"Open_vSwitch"` routes the updates payload; any
other string key is the unknown-database error, a non-string key is the
invalid-key error (both `format!` strings of the source, sans the
formatted key). -/
def routeMonitorEvent (params : JsonRpcMonitorEventParams) :
    Except String RoutedUpdate :=
  match params.key with
  | .str dbname =>
    if dbname = "hardware_vtep" then
      .ok (.vtepUpdate (JsonDiff.deserialize params.updates))
    else if dbname = "Open_vSwitch" then
      .ok (.ovsUpdate params.updates)
    else
      .error ("Monitor event relating to an unknown database " ++ dbname)
  | _ => .error "Invalid monitor event key"

/-- Whether a JSON value is one of OVSDB's four reserved tag strings
(statement-side helper for the unknown-tag claims). -/
def isReservedTag (j : Json) : Bool :=
  match j with
  | .str t => t = "uuid" || t = "named-uuid" || t = "set" || t = "map"
  | _ => false

/-- Whether a top-level key of a database diff names one of the four
modelled tables (statement-side helper for the unknown-table claim). -/
def isKnownTable (k : String) : Bool :=
  k = "Physical_Switch" || k = "Physical_Locator" || k = "Physical_Locator_Set" || k = "Tunnel"

/-! ### Theorems about the decoders -/

/-- Every `Except` computation lands in `ok` or `error`; the decoders are
total functions with no panicking path. -/
theorem except_ok_or_error {ε α : Type} (x : Except ε α) :
    (∃ v, x = Except.ok v) ∨ (∃ e, x = Except.error e) := by
  cases x with
  | ok v => exact Or.inl ⟨v, rfl⟩
  | error e => exact Or.inr ⟨e, rfl⟩

/-- Claim C1: for every JSON input, the core decode functions (UUID
decoding, UUID-set decoding, row-part decoding, database-diff decoding)
return a result value — `ok` or `error` — and never panic or abort on
malformed input. -/
theorem C1_decoders_total (j : Json) :
    ((∃ v, deserialize_uuid j = Except.ok v) ∨ (∃ e, deserialize_uuid j = Except.error e)) ∧
    ((∃ v, deserialize_uuid_set j = Except.ok v) ∨ (∃ e, deserialize_uuid_set j = Except.error e)) ∧
    ((∃ v, JsonVtepPhysicalSwitchPart.deserialize j = Except.ok v) ∨
      (∃ e, JsonVtepPhysicalSwitchPart.deserialize j = Except.error e)) ∧
    ((∃ v, JsonDiff.deserialize j = Except.ok v) ∨ (∃ e, JsonDiff.deserialize j = Except.error e)) :=
  ⟨except_ok_or_error _, except_ok_or_error _, except_ok_or_error _, except_ok_or_error _⟩

/-- Claim C2, counterexample: decoding the empty row-diff object does not
fail at all — it succeeds with both halves absent, so there is no
`MissingRowDiff` failure. -/
theorem C2_counterexample :
    JsonDiffVtepPhysicalSwitch.deserialize (Json.obj []) = Except.ok ⟨none, none⟩ ∧
    ¬ ∃ e, JsonDiffVtepPhysicalSwitch.deserialize (Json.obj []) = Except.error e := by
  refine ⟨rfl, ?_⟩
  rintro ⟨e, h⟩
  rw [show JsonDiffVtepPhysicalSwitch.deserialize (Json.obj [])
      = Except.ok ⟨none, none⟩ from rfl] at h
  exact Except.noConfusion h

/-- Claim C2, amended: decoding a row-diff object with neither an `old` key
nor a `new` key succeeds, yielding a row diff with both halves `none`; the
code performs no at-least-one-present check. -/
theorem C2_empty_rowdiff_decodes :
    JsonDiffVtepPhysicalSwitch.deserialize (Json.obj []) = Except.ok ⟨none, none⟩ ∧
    JsonDiffVtepTunnel.deserialize (Json.obj []) = Except.ok ⟨none, none⟩ :=
  ⟨rfl, rfl⟩

/-- Claim C3, counterexample: the tagged pair `["named-uuid", "n"]` fails to
decode in a UUID position — it is not tolerated. -/
theorem C3_counterexample :
    deserialize_uuid (Json.arr [Json.str "named-uuid", Json.str "n"]) =
      Except.error (DecodeError.custom "expected [\"uuid\", <uuid>]") ∧
    ¬ ∃ v, deserialize_uuid (Json.arr [Json.str "named-uuid", Json.str "n"]) = Except.ok v := by
  refine ⟨rfl, ?_⟩
  rintro ⟨v, h⟩
  rw [show deserialize_uuid (Json.arr [Json.str "named-uuid", Json.str "n"])
      = Except.error (DecodeError.custom "expected [\"uuid\", <uuid>]") from rfl] at h
  exact Except.noConfusion h

/-- Claim C3, amended: a tagged pair `["named-uuid", name]` fails to decode
wherever a UUID reference or a member of a UUID set is expected: the UUID
parser accepts only the `"uuid"` tag, and the set decoder accepts only the
`"set"` and `"uuid"` tags. -/
theorem C3_named_uuid_rejected (name : String) :
    JsonUuidVisitor.parse (Json.arr [Json.str "named-uuid", Json.str name]) =
      Except.error (DecodeError.custom "expected [\"uuid\", <uuid>]") ∧
    deserialize_uuid (Json.arr [Json.str "named-uuid", Json.str name]) =
      Except.error (DecodeError.custom "expected [\"uuid\", <uuid>]") ∧
    deserialize_uuid_set
        (Json.arr [Json.str "set", Json.arr [Json.arr [Json.str "named-uuid", Json.str name]]]) =
      Except.error (DecodeError.custom "expected [\"uuid\", <uuid>]") ∧
    deserialize_uuid_set (Json.arr [Json.str "named-uuid", Json.str name]) =
      Except.error (DecodeError.custom "expected \"set\" or \"uuid\"") :=
  ⟨rfl, rfl, rfl, rfl⟩

/-- Claim C4: for every UUID string `x`, the one-element-set shorthand (a
bare `["uuid", x]` pair in a set-valued position) decodes exactly like the
full form `["set", [["uuid", x]]]`: a singleton sequence containing `x`. -/
theorem C4_singleton_set_shorthand (x : String) :
    deserialize_uuid_set (Json.arr [Json.str "uuid", Json.str x]) =
      deserialize_uuid_set
        (Json.arr [Json.str "set", Json.arr [Json.arr [Json.str "uuid", Json.str x]]]) ∧
    deserialize_uuid_set (Json.arr [Json.str "uuid", Json.str x]) = Except.ok (some [x]) :=
  ⟨rfl, rfl⟩

/-- Claim C5: a 2-element array whose first element is not one of the four
reserved tag strings is always rejected in a tagged-pair position: the UUID
parser and the UUID-set decoder both fail with their unknown-encoding
error, never guessing an interpretation. -/
theorem C5_unknown_tag_rejected (e v : Json) (h : isReservedTag e = false) :
    JsonUuidVisitor.parse (Json.arr [e, v]) =
      Except.error (DecodeError.custom "expected [\"uuid\", <uuid>]") ∧
    deserialize_uuid_set (Json.arr [e, v]) =
      Except.error (DecodeError.custom "expected \"set\" or \"uuid\"") := by
  cases e with
  | str t =>
    have h1 : t ≠ "uuid" := by intro hh; rw [hh] at h; simp [isReservedTag] at h
    have h3 : t ≠ "set" := by intro hh; rw [hh] at h; simp [isReservedTag] at h
    constructor
    · simp [JsonUuidVisitor.parse, h1]
    · simp [deserialize_uuid_set, deserializeSeq, JsonUuidSetVisitor.visit, h1, h3]
  | null => exact ⟨rfl, rfl⟩
  | bool b => exact ⟨rfl, rfl⟩
  | num n => exact ⟨rfl, rfl⟩
  | arr xs => exact ⟨rfl, rfl⟩
  | obj ms => exact ⟨rfl, rfl⟩

/-- Witness for C5 at the spec's own example `["bogus", 1]`. -/
theorem C5_witness :
    isReservedTag (Json.str "bogus") = false ∧
    (JsonUuidVisitor.parse (Json.arr [Json.str "bogus", Json.num 1]) =
      Except.error (DecodeError.custom "expected [\"uuid\", <uuid>]") ∧
    deserialize_uuid_set (Json.arr [Json.str "bogus", Json.num 1]) =
      Except.error (DecodeError.custom "expected \"set\" or \"uuid\"")) :=
  ⟨by decide, C5_unknown_tag_rejected (Json.str "bogus") (Json.num 1) (by decide)⟩

/-- Claim C6: an array of length other than two in a tagged-pair position —
a UUID cell, or the notification parameter array — fails with an
`invalid_length` error, never silently coerced. -/
theorem C6_length_mismatch (xs : List Json) (h : xs.length ≠ 2) :
    deserialize_uuid (Json.arr xs) = Except.error (DecodeError.invalidLength 0 "2") ∧
    ∃ n s, deserialize_monitor_event_params (Json.arr xs) =
      Except.error (DecodeError.invalidLength n s) := by
  cases xs with
  | nil => exact ⟨rfl, 0, "2", rfl⟩
  | cons a t =>
    cases t with
    | nil => exact ⟨rfl, 0, "2", rfl⟩
    | cons b u =>
      cases u with
      | nil => exact absurd rfl h
      | cons c w =>
        exact ⟨rfl, (a :: b :: c :: w).length, "fewer elements in array", rfl⟩

/-- Witness for C6 at the spec's own example `[1, 2, 3]`. -/
theorem C6_witness :
    ([Json.num 1, Json.num 2, Json.num 3] : List Json).length ≠ 2 ∧
    (deserialize_uuid (Json.arr [Json.num 1, Json.num 2, Json.num 3]) =
      Except.error (DecodeError.invalidLength 0 "2") ∧
    ∃ n s, deserialize_monitor_event_params (Json.arr [Json.num 1, Json.num 2, Json.num 3]) =
      Except.error (DecodeError.invalidLength n s)) :=
  ⟨by decide, C6_length_mismatch [Json.num 1, Json.num 2, Json.num 3] (by decide)⟩

/-- Claim C7: a top-level key of a database diff that names no modelled
table is ignored — decoding with it present gives exactly the decoding
without it — and the empty payload decodes to four empty table diffs. -/
theorem C7_unknown_table_ignored (k : String) (v : Json) (kvs : List (String × Json))
    (h : isKnownTable k = false) :
    JsonDiff.deserialize (Json.obj ((k, v) :: kvs)) = JsonDiff.deserialize (Json.obj kvs) ∧
    JsonDiff.deserialize (Json.obj []) = Except.ok ⟨[], [], [], []⟩ := by
  have h1 : k ≠ "Physical_Switch" := by
    intro hh; rw [hh] at h; simp [isKnownTable] at h
  have h2 : k ≠ "Physical_Locator" := by
    intro hh; rw [hh] at h; simp [isKnownTable] at h
  have h3 : k ≠ "Physical_Locator_Set" := by
    intro hh; rw [hh] at h; simp [isKnownTable] at h
  have h4 : k ≠ "Tunnel" := by
    intro hh; rw [hh] at h; simp [isKnownTable] at h
  refine ⟨?_, rfl⟩
  simp [JsonDiff.deserialize, decodeField, lookupField, h1, h2, h3, h4]

/-- Witness for C7 at the unmodeled table name `"Interface"` (a table the
demo program itself monitors without typing). -/
theorem C7_witness :
    isKnownTable "Interface" = false ∧
    (JsonDiff.deserialize (Json.obj [("Interface", Json.null)]) =
      JsonDiff.deserialize (Json.obj []) ∧
    JsonDiff.deserialize (Json.obj []) = Except.ok ⟨[], [], [], []⟩) :=
  ⟨by decide, C7_unknown_table_ignored "Interface" Json.null [] (by decide)⟩

/-- Claim C8: a monitor event whose string key is neither
`"hardware_vtep"` nor `"Open_vSwitch"` fails with the unknown-database
error; a matching key routes the updates payload to the corresponding
handling (`hardware_vtep` to `JsonDiff` decoding, `Open_vSwitch` kept
raw). -/
theorem C8_subscription_key_routing (dbname : String) (updates : Json)
    (h1 : dbname ≠ "hardware_vtep") (h2 : dbname ≠ "Open_vSwitch") :
    routeMonitorEvent ⟨Json.str dbname, updates⟩ =
      Except.error ("Monitor event relating to an unknown database " ++ dbname) ∧
    routeMonitorEvent ⟨Json.str "hardware_vtep", updates⟩ =
      Except.ok (RoutedUpdate.vtepUpdate (JsonDiff.deserialize updates)) ∧
    routeMonitorEvent ⟨Json.str "Open_vSwitch", updates⟩ =
      Except.ok (RoutedUpdate.ovsUpdate updates) := by
  refine ⟨?_, rfl, rfl⟩
  simp [routeMonitorEvent, h1, h2]

/-- Witness for C8 at the unknown key `"bogus"`. -/
theorem C8_witness :
    ("bogus" : String) ≠ "hardware_vtep" ∧ ("bogus" : String) ≠ "Open_vSwitch" ∧
    (routeMonitorEvent ⟨Json.str "bogus", Json.null⟩ =
      Except.error ("Monitor event relating to an unknown database " ++ "bogus") ∧
    routeMonitorEvent ⟨Json.str "hardware_vtep", Json.null⟩ =
      Except.ok (RoutedUpdate.vtepUpdate (JsonDiff.deserialize Json.null)) ∧
    routeMonitorEvent ⟨Json.str "Open_vSwitch", Json.null⟩ =
      Except.ok (RoutedUpdate.ovsUpdate Json.null)) :=
  ⟨by decide, by decide,
    C8_subscription_key_routing "bogus" Json.null (by decide) (by decide)⟩

/-- Claim C9: the empty-set encoding `["set", []]` decodes to an empty
sequence of UUIDs — not an error and not an absent value. -/
theorem C9_empty_set_decodes :
    deserialize_uuid_set (Json.arr [Json.str "set", Json.arr []]) = Except.ok (some []) :=
  rfl

/-- Claim C10, counterexample: in the Physical_Locator_Set table, a bare
`["uuid", "x"]` pair in the `locators` column decodes successfully — as the
literal two-element string list — rather than failing. -/
theorem C10_counterexample :
    JsonVtepPhysicalLocatorSetPart.deserialize
        (Json.obj [("locators", Json.arr [Json.str "uuid", Json.str "x"])]) =
      Except.ok ⟨some ["uuid", "x"]⟩ ∧
    ¬ ∃ e, JsonVtepPhysicalLocatorSetPart.deserialize
        (Json.obj [("locators", Json.arr [Json.str "uuid", Json.str "x"])]) =
      Except.error e := by
  refine ⟨rfl, ?_⟩
  rintro ⟨e, h⟩
  rw [show JsonVtepPhysicalLocatorSetPart.deserialize
      (Json.obj [("locators", Json.arr [Json.str "uuid", Json.str "x"])])
      = Except.ok ⟨some ["uuid", "x"]⟩ from rfl] at h
  exact Except.noConfusion h

/-- Claim C10, amended: the `locators` column of Physical_Locator_Set is
decoded as a plain JSON array of bare strings with no tagged-pair
interpretation: the OVSDB set form `["set", [["uuid", x]]]` fails to
decode, while a bare `["uuid", x]` pair decodes as the literal string list
`["uuid", x]`; the `ports` column of Physical_Switch instead uses the
UUID-set decoder and accepts both forms as the singleton `[x]`. -/
theorem C10_locators_plain_strings (x : String) :
    JsonVtepPhysicalLocatorSetPart.deserialize
        (Json.obj [("locators",
          Json.arr [Json.str "set", Json.arr [Json.arr [Json.str "uuid", Json.str x]]])]) =
      Except.error (DecodeError.invalidType "a string") ∧
    JsonVtepPhysicalLocatorSetPart.deserialize
        (Json.obj [("locators", Json.arr [Json.str "uuid", Json.str x])]) =
      Except.ok ⟨some ["uuid", x]⟩ ∧
    JsonVtepPhysicalSwitchPart.deserialize
        (Json.obj [("ports",
          Json.arr [Json.str "set", Json.arr [Json.arr [Json.str "uuid", Json.str x]]])]) =
      Except.ok ⟨none, some [x], none, none⟩ ∧
    JsonVtepPhysicalSwitchPart.deserialize
        (Json.obj [("ports", Json.arr [Json.str "uuid", Json.str x])]) =
      Except.ok ⟨none, some [x], none, none⟩ :=
  ⟨rfl, rfl, rfl, rfl⟩
